import Mathlib

/-!
Shallow embedding of the chat-logger extension (`src/framework.js`).

The logger stores each captured message as a `div` appended to a hidden log
container, carrying the fields as `data-*` attributes; we model the container
as a `List ChatRecord` in document (= append) order.  The host's chat emission
function `UI.addChatLine` is wrapped by `hookChatSystem`; exports read the
container (`downloadLog`) or, when it is empty, scrape the live `#chatlines`
view (`downloadCurrentChat`); `clearLog` empties the container.
-/

/-- A canonical chat record, as stored by `logMessage` via the attributes
`data-timestamp`, `data-player`, `data-type`, `data-text` on one log entry. -/
structure ChatRecord where
  timestamp : String
  player : String
  type : String
  text : String
deriving DecidableEq

/-- A JavaScript value as relevant to the sender field: `undefined` or a
string.  Reading `player.name` on a player object without a `name` property
yields `undefined`; `setAttribute` coerces a value to a string, turning
`undefined` into the string "undefined". -/
inductive JSVal where
  | undef : JSVal
  | str : String → JSVal
deriving DecidableEq

/-- The string `setAttribute` stores for a value. -/
def JSVal.asAttr : JSVal → String
  | .undef => "undefined"
  | .str s => s

/-- A player object; `name` is `none` when the object has no name property. -/
structure PlayerObj where
  name : Option String
deriving DecidableEq

/-- The expression `player ? player.name : 'Unknown'` in `logMessage`: a falsy
player argument (absent or null, modelled as `none`) yields 'Unknown'; a player
object is truthy and yields its `name` property, which may be `undefined`. -/
def playerNameVal : Option PlayerObj → JSVal
  | none => .str "Unknown"
  | some p =>
    match p.name with
    | none => .undef
    | some n => .str n

/-- A wall-clock instant at second resolution, as exposed by
`new Date().toISOString().slice(0, 19)` (UTC). -/
structure DateTime where
  year : Nat
  month : Nat
  day : Nat
  hour : Nat
  minute : Nat
  second : Nat
deriving DecidableEq

/-- Two-digit zero padding of a date component. -/
def pad2 (n : Nat) : String := if n < 10 then "0" ++ toString n else toString n

/-- Four-digit zero padding of the year. -/
def pad4 (n : Nat) : String :=
  if n < 10 then "000" ++ toString n
  else if n < 100 then "00" ++ toString n
  else if n < 1000 then "0" ++ toString n
  else toString n

/-- `new Date().toISOString().slice(0, 19)`: the instant as
`YYYY-MM-DDTHH:MM:SS`. -/
def isoSlice19 (t : DateTime) : String :=
  pad4 t.year ++ "-" ++ pad2 t.month ++ "-" ++ pad2 t.day ++ "T" ++
    pad2 t.hour ++ ":" ++ pad2 t.minute ++ ":" ++ pad2 t.second

/-- Replace every occurrence of the character `c` by `r` in `s`.  This models
the string replaces of the source: `.replace('T', ' ')` (first occurrence, but
the sliced ISO string contains exactly one 'T') and the global
`.replace(/:/g, '-')`. -/
def replaceChar (c r : Char) (s : String) : String :=
  String.mk (s.toList.map (fun x => if x = c then r else x))

/-- The capture timestamp of `logMessage`:
`toISOString().slice(0, 19).replace('T', ' ')`. -/
def timestampOf (t : DateTime) : String := replaceChar 'T' ' ' (isoSlice19 t)

/-- The `switch (chatType)` of `logMessage`: codes 1, 2, 3 select a label and
every other value (an absent argument modelled as `none`) falls through to the
default, leaving `typeText` the empty string. -/
def typeTextOf : Option Int → String
  | some 1 => "WHISPER_TO"
  | some 2 => "WHISPER_FROM"
  | some 3 => "TEAM"
  | _ => ""

/-- `logMessage(player, text, chatType)`: build a log entry carrying the
capture timestamp, resolved player name, type label and text, and append it to
the log container. -/
def logMessage (now : DateTime) (player : Option PlayerObj) (text : String)
    (chatType : Option Int) (log : List ChatRecord) : List ChatRecord :=
  log ++ [{ timestamp := timestampOf now,
            player := (playerNameVal player).asAttr,
            type := typeTextOf chatType,
            text := text }]

/-- `clearLog()`: assign the empty string to the log container's innerHTML —
removing every record and emptying the rendered view, which is the same
element — and raise the blocking confirmation alert. -/
def clearLog (_log : List ChatRecord) : List ChatRecord × String :=
  ([], "Chat log cleared")

/-- Reading the capture log back at export time:
`logContainer.querySelectorAll('div')` enumerates the appended entries in
document order, i.e. the list itself. -/
def readAll (log : List ChatRecord) : List ChatRecord := log

/-- One formatted transcript line of `downloadLog`: the type attribute is
truthy exactly when it is non-empty. -/
def formatRecord (r : ChatRecord) : String :=
  if r.type = "" then
    "[" ++ r.timestamp ++ "] " ++ r.player ++ ": " ++ r.text
  else
    "[" ++ r.timestamp ++ "] [" ++ r.type ++ "] " ++ r.player ++ ": " ++ r.text

/-- `downloadLog`'s transcript: one line per logged entry, in container order,
joined with `'\n'` (`messages.join('\n')`). -/
def formatLog (log : List ChatRecord) : String :=
  String.intercalate "\n" (log.map formatRecord)

/-- The observable outcome of an export request: a downloaded text file
(content and filename as handed to `downloadTextFile`) or a blocking `alert`
notice. -/
inductive ExportResult where
  | file : String → String → ExportResult
  | notice : String → ExportResult
deriving DecidableEq

/-- One `div.line` of the `#chatlines` fallback container; each of the `.tag`,
`.nick` and `.text` sub-elements defaults to the empty string when absent. -/
structure FallbackLine where
  tag : String
  nick : String
  text : String
deriving DecidableEq

/-- The line `downloadCurrentChat` renders for one on-screen chat element,
stamped with the current capture time. -/
def formatFallbackLine (now : DateTime) (d : FallbackLine) : String :=
  if d.tag = "" then
    "[" ++ timestampOf now ++ "] " ++ d.nick ++ ": " ++ d.text
  else
    "[" ++ timestampOf now ++ "] [" ++ d.tag ++ "] " ++ d.nick ++ ": " ++ d.text

/-- The filename built by `downloadCurrentChat`. -/
def currentChatFilename (now : DateTime) : String :=
  "game-chat-" ++ replaceChar ':' '-' (isoSlice19 now) ++ ".txt"

/-- The filename built by `downloadLog`. -/
def logFilename (now : DateTime) : String :=
  "game-chat-log-" ++ replaceChar ':' '-' (isoSlice19 now) ++ ".txt"

/-- `downloadCurrentChat()`: a missing `#chatlines` container (modelled as
`none`) raises an alert; otherwise each `div.line` is rendered with the
current timestamp; an empty rendering raises an alert; otherwise the joined
text is downloaded. -/
def downloadCurrentChat (now : DateTime)
    (chatlines : Option (List FallbackLine)) : ExportResult :=
  match chatlines with
  | none => .notice "Chat container not found"
  | some divs =>
    let messages := divs.map (formatFallbackLine now)
    if messages.length = 0 then .notice "No chat messages found"
    else .file (String.intercalate "\n" messages) (currentChatFilename now)

/-- `downloadLog()`: with zero captured entries fall back to
`downloadCurrentChat`, otherwise format the captured entries and download. -/
def downloadLog (now : DateTime) (log : List ChatRecord)
    (chatlines : Option (List FallbackLine)) : ExportResult :=
  if log.length = 0 then downloadCurrentChat now chatlines
  else .file (formatLog log) (logFilename now)

/-- The export action on the full logger state: `downloadLog` and
`downloadCurrentChat` only read the containers, so the log is returned
unchanged alongside the result. -/
def downloadLogOp (now : DateTime) (log : List ChatRecord)
    (chatlines : Option (List FallbackLine)) : ExportResult × List ChatRecord :=
  (downloadLog now log chatlines, log)

/-- A host return value: JavaScript functions return `undefined` unless they
return a value; the wrapper's arrow body has no `return` statement. -/
inductive JSRet where
  | undef : JSRet
  | val : Nat → JSRet
deriving DecidableEq

/-- The state visible to the wrapped `UI.addChatLine`: the host's own state
(the `UI` object the original is called on, plus whatever the original
mutates) together with the logger's container. -/
structure SystemState (σ : Type) where
  host : σ
  log : List ChatRecord

/-- The wrapper installed by `hookChatSystem` over a host original `orig`
(acting on the host state it is bound to and producing a return value): it
calls the original first via `originalAddChatLine.call(UI, player, text,
chatType)` — identical arguments, identical binding — then logs the message;
the arrow-function body has no `return`, so the wrapper itself evaluates to
`undefined`. -/
def wrappedAddChatLine {σ : Type}
    (orig : σ → Option PlayerObj → String → Option Int → σ × JSRet)
    (now : DateTime) (s : SystemState σ) (player : Option PlayerObj)
    (text : String) (chatType : Option Int) : SystemState σ × JSRet :=
  let h := orig s.host player text chatType
  ({ host := h.1, log := logMessage now player text chatType s.log }, JSRet.undef)

/-- One captured chat event: capture time plus the raw wrapped-call
arguments. -/
structure ChatEvent where
  now : DateTime
  player : Option PlayerObj
  text : String
  chatType : Option Int
deriving DecidableEq

/-- The record `logMessage` appends for one event. -/
def normalizeEvent (e : ChatEvent) : ChatRecord :=
  { timestamp := timestampOf e.now,
    player := (playerNameVal e.player).asAttr,
    type := typeTextOf e.chatType,
    text := e.text }

/-- Capturing a sequence of events in arrival order. -/
def applyEvents (evs : List ChatEvent) (log : List ChatRecord) : List ChatRecord :=
  evs.foldl (fun l e => logMessage e.now e.player e.text e.chatType l) log

/-- Rendering as worded by the transcript claim: one line per record, in
insertion order, lines joined by a single newline, no trailing newline. -/
def renderLines : List ChatRecord → String
  | [] => ""
  | [r] => formatRecord r
  | r :: rest => formatRecord r ++ "\n" ++ renderLines rest

/-! ### Helper lemmas shared by the proofs -/

/-- A fixed capture instant, 2024-01-02 03:04:05 UTC, used for concrete
witnesses. -/
def dt0 : DateTime := ⟨2024, 1, 2, 3, 4, 5⟩

/-- A host original whose return value is not `undefined`. -/
def origValOne : Unit → Option PlayerObj → String → Option Int → Unit × JSRet :=
  fun u _ _ _ => (u, JSRet.val 1)

/-- Joining a list of lines with single newlines, no trailing newline,
written as the recursion the transcript claim describes. -/
def joinStrings : List String → String
  | [] => ""
  | [x] => x
  | x :: xs => x ++ "\n" ++ joinStrings xs

theorem intercalate_go_eq (as : List String) : ∀ acc : String,
    String.intercalate.go acc "\n" as = joinStrings (acc :: as) := by
  induction as with
  | nil => intro acc; rfl
  | cons a rest ih =>
    intro acc
    have h1 : String.intercalate.go acc "\n" (a :: rest)
        = String.intercalate.go (acc ++ "\n" ++ a) "\n" rest := rfl
    rw [h1, ih]
    cases rest with
    | nil => rfl
    | cons b t => simp [joinStrings, String.append_assoc]

theorem intercalate_eq_joinStrings (xs : List String) :
    String.intercalate "\n" xs = joinStrings xs := by
  cases xs with
  | nil => rfl
  | cons a as => exact intercalate_go_eq as a

theorem renderLines_eq (log : List ChatRecord) :
    renderLines log = joinStrings (log.map formatRecord) := by
  induction log with
  | nil => rfl
  | cons r rest ih =>
    cases rest with
    | nil => rfl
    | cons s t =>
      show formatRecord r ++ "\n" ++ renderLines (s :: t) = _
      rw [ih]
      rfl

theorem applyEvents_eq (evs : List ChatEvent) : ∀ init : List ChatRecord,
    applyEvents evs init = init ++ evs.map normalizeEvent := by
  induction evs with
  | nil => intro init; simp [applyEvents]
  | cons e t ih =>
    intro init
    have h1 : applyEvents (e :: t) init = applyEvents t (init ++ [normalizeEvent e]) := rfl
    rw [h1, ih]
    simp

/-! ### The claims -/

/-- Claim C1, counterexample: the wrapper installed over an original whose
return value is `JSRet.val 1` returns `JSRet.undef` to the host's callers, not
the original's return value — the arrow-function body of `hookChatSystem`
never returns the result of `originalAddChatLine.call`. -/
theorem c1_wrapper_counterexample :
    (wrappedAddChatLine origValOne dt0 ⟨(), []⟩ none "hi" (some 0)).2 ≠
      (origValOne () none "hi" (some 0)).2 := by decide

/-- Claim C1 (amended): after installation the wrapped chat-emission function
keeps the original's signature and invokes the original first with identical
arguments and the same binding, so the host-side state evolves exactly as
under the original; but the wrapper's own return value is always `undefined`
(the original's return value is discarded), so return behavior is preserved
only for originals that themselves return `undefined`. -/
theorem c1_wrapper_amended {σ : Type}
    (orig : σ → Option PlayerObj → String → Option Int → σ × JSRet)
    (now : DateTime) (s : SystemState σ) (player : Option PlayerObj)
    (text : String) (chatType : Option Int) :
    (wrappedAddChatLine orig now s player text chatType).1.host
      = (orig s.host player text chatType).1 ∧
    (wrappedAddChatLine orig now s player text chatType).2 = JSRet.undef :=
  ⟨rfl, rfl⟩

/-- Claim C2, counterexample: a sender object that is present but exposes no
display name does not produce the sender `"Unknown"`: the expression
`player ? player.name : 'Unknown'` takes the truthy branch, reads the missing
`name` property as `undefined`, and `setAttribute` stores the coerced string
"undefined". -/
theorem c2_sender_counterexample :
    (logMessage dt0 (some ⟨none⟩) "hi" (some 0) []).map ChatRecord.player
      = ["undefined"] ∧ ("undefined" : String) ≠ "Unknown" := by decide

/-- Claim C2 (amended): the record's sender field is the sender object's
display name when the sender object is present and exposes one, and the
literal "Unknown" when the sender object is absent or null; when the sender
object is present without a display name the stored sender is the string
coercion of `undefined`, the literal "undefined", not "Unknown". -/
theorem c2_sender_amended (now : DateTime) (text : String) (ct : Option Int)
    (log : List ChatRecord) (p : Option PlayerObj) :
    (logMessage now p text ct log).map ChatRecord.player
      = log.map ChatRecord.player ++
        [match p with
          | none => "Unknown"
          | some { name := some n } => n
          | some { name := none } => "undefined"] := by
  rcases p with _ | ⟨_ | n⟩ <;> simp [logMessage, playerNameVal, JSVal.asAttr]

/-- Claim C3: every single invocation of the wrapped chat-emission function
appends exactly one new record — the normalization of its arguments — to the
capture log: the log becomes the old log plus that one record, and its length
grows by exactly one. -/
theorem c3_exactly_once {σ : Type}
    (orig : σ → Option PlayerObj → String → Option Int → σ × JSRet)
    (now : DateTime) (s : SystemState σ) (player : Option PlayerObj)
    (text : String) (chatType : Option Int) :
    (wrappedAddChatLine orig now s player text chatType).1.log
      = s.log ++ [normalizeEvent ⟨now, player, text, chatType⟩] ∧
    ((wrappedAddChatLine orig now s player text chatType).1.log).length
      = s.log.length + 1 := by
  refine ⟨rfl, ?_⟩
  simp [wrappedAddChatLine, logMessage]

/-- Claim C4: after capturing any sequence of N events on top of any prior
content, the record enumeration used at export time returns the prior records
unchanged followed by exactly the N new records in the order appended; in
particular N appends onto an empty log read back as exactly those N records,
and capture never mutates or removes an existing record (the prior log is a
prefix of the new one). -/
theorem c4_append_order (evs : List ChatEvent) (init : List ChatRecord) :
    readAll (applyEvents evs init) = init ++ evs.map normalizeEvent ∧
    (readAll (applyEvents evs init)).length = init.length + evs.length ∧
    readAll (applyEvents evs []) = evs.map normalizeEvent ∧
    init <+: applyEvents evs init := by
  refine ⟨applyEvents_eq evs init, ?_, ?_, ?_⟩
  · simp [readAll, applyEvents_eq]
  · simp [readAll, applyEvents_eq]
  · exact ⟨evs.map normalizeEvent, (applyEvents_eq evs init).symm⟩

/-- Claim C5: the transcript renders one line per record in insertion order —
a `[timestamp] [category] sender: text` line when the category label is
non-empty and `[timestamp] sender: text` when it is the empty `NONE` label —
joined by single newlines with no trailing newline (`renderLines` is that
recursion); in particular capturing ("Alice", "hi", 0) at time d1 and then
("Bob", "hey", 3) at time d2 formats to exactly
`[t1] Alice: hi\n[t2] [TEAM] Bob: hey` for the two capture timestamps. -/
theorem c5_transcript_format (log : List ChatRecord) (d1 d2 : DateTime) :
    formatLog log = renderLines log ∧
    formatLog (applyEvents
        [⟨d1, some ⟨some "Alice"⟩, "hi", some 0⟩,
         ⟨d2, some ⟨some "Bob"⟩, "hey", some 3⟩] [])
      = "[" ++ timestampOf d1 ++ "] Alice: hi\n["
          ++ timestampOf d2 ++ "] [TEAM] Bob: hey" := by
  constructor
  · rw [formatLog, intercalate_eq_joinStrings, renderLines_eq]
  · have h1 : formatLog (applyEvents
        [⟨d1, some ⟨some "Alice"⟩, "hi", some 0⟩,
         ⟨d2, some ⟨some "Bob"⟩, "hey", some 3⟩] [])
        = ("[" ++ timestampOf d1 ++ "] " ++ "Alice" ++ ": " ++ "hi") ++ "\n" ++
          ("[" ++ timestampOf d2 ++ "] [" ++ "TEAM" ++ "] " ++ "Bob" ++ ": " ++ "hey") := rfl
    rw [h1]
    apply String.ext
    simp only [String.data_append, List.append_assoc]
    rfl

/-- Claim C6: the category label is a total deterministic function of the
integer category code — 1 maps to WHISPER_TO, 2 to WHISPER_FROM, 3 to TEAM,
and every other code, including an absent one, maps to the empty `NONE`
label. -/
theorem c6_category_total :
    typeTextOf (some 1) = "WHISPER_TO" ∧
    typeTextOf (some 2) = "WHISPER_FROM" ∧
    typeTextOf (some 3) = "TEAM" ∧
    ∀ c : Option Int, c ≠ some 1 → c ≠ some 2 → c ≠ some 3 → typeTextOf c = "" := by
  refine ⟨rfl, rfl, rfl, ?_⟩
  intro c h1 h2 h3
  unfold typeTextOf
  split <;> simp_all

/-- Witness for C6 at the concrete code 5 and at an absent code. -/
theorem c6_category_total_witness :
    typeTextOf (some 5) = "" ∧ typeTextOf none = "" :=
  ⟨c6_category_total.2.2.2 (some 5) (by decide) (by decide) (by decide),
   c6_category_total.2.2.2 none (by decide) (by decide) (by decide)⟩

/-- Claim C7: when nothing was captured and the fallback container is missing
or holds nothing extractable, the export surfaces a user-visible alert
("Chat container not found" or "No chat messages found"), hands nothing to the
file-download mechanism, and leaves the capture log unchanged. -/
theorem c7_empty_export (now : DateTime) (log : List ChatRecord)
    (chatlines : Option (List FallbackLine))
    (hlog : log = []) (hcl : chatlines = none ∨ chatlines = some []) :
    ((downloadLogOp now log chatlines).1 = ExportResult.notice "Chat container not found" ∨
     (downloadLogOp now log chatlines).1 = ExportResult.notice "No chat messages found") ∧
    (∀ content fn, (downloadLogOp now log chatlines).1 ≠ ExportResult.file content fn) ∧
    (downloadLogOp now log chatlines).2 = log := by
  subst hlog
  rcases hcl with h | h <;> subst h <;>
    simp [downloadLogOp, downloadLog, downloadCurrentChat]

/-- Witness for C7: empty log and missing container at the fixed instant. -/
theorem c7_empty_export_witness :
    ((downloadLogOp dt0 [] none).1 = ExportResult.notice "Chat container not found" ∨
     (downloadLogOp dt0 [] none).1 = ExportResult.notice "No chat messages found") ∧
    (∀ content fn, (downloadLogOp dt0 [] none).1 ≠ ExportResult.file content fn) ∧
    (downloadLogOp dt0 [] none).2 = [] :=
  c7_empty_export dt0 [] none rfl (Or.inl rfl)

/-- Claim C8: exporting a non-empty captured log at wall-clock time
2024-01-02 03:04:05 produces a download whose filename is exactly
`game-chat-log-2024-01-02T03-04-05.txt` — the hardcoded prefix, a dash, and
the sliced ISO timestamp with the colons replaced by dashes, ending in
`.txt`. -/
theorem c8_export_filename (log : List ChatRecord)
    (chatlines : Option (List FallbackLine)) (h : log ≠ []) :
    downloadLog dt0 log chatlines
      = ExportResult.file (formatLog log) "game-chat-log-2024-01-02T03-04-05.txt" := by
  unfold downloadLog
  rw [if_neg (by simpa using h)]
  have h2 : logFilename dt0 = "game-chat-log-2024-01-02T03-04-05.txt" := rfl
  rw [h2]

/-- Witness for C8 on a one-record log. -/
theorem c8_export_filename_witness :
    downloadLog dt0 [⟨"2024-01-02 03:04:05", "Alice", "", "hi"⟩] none
      = ExportResult.file (formatLog [⟨"2024-01-02 03:04:05", "Alice", "", "hi"⟩])
          "game-chat-log-2024-01-02T03-04-05.txt" :=
  c8_export_filename [⟨"2024-01-02 03:04:05", "Alice", "", "hi"⟩] none (by decide)

/-- Claim C9: clearing the log removes every record regardless of prior
content, so a subsequent read yields the empty sequence; the same innerHTML
assignment empties the rendered view (the log container is itself the view);
and the caller receives the blocking confirmation "Chat log cleared". -/
theorem c9_clear_log (log : List ChatRecord) :
    readAll (clearLog log).1 = [] ∧ (clearLog log).2 = "Chat log cleared" :=
  ⟨rfl, rfl⟩

/-- Claim C10: the fallback export path builds its filename with the prefix
"game-chat", the primary path with "game-chat-log"; at the same wall-clock
instant the two paths therefore produce differently named artifacts. -/
theorem c10_distinct_filenames (now : DateTime) (lines : List FallbackLine)
    (h : lines ≠ []) :
    downloadCurrentChat now (some lines)
      = ExportResult.file (String.intercalate "\n" (lines.map (formatFallbackLine now)))
          (currentChatFilename now) ∧
    currentChatFilename now = "game-chat-" ++ replaceChar ':' '-' (isoSlice19 now) ++ ".txt" ∧
    logFilename now = "game-chat-log-" ++ replaceChar ':' '-' (isoSlice19 now) ++ ".txt" ∧
    currentChatFilename now ≠ logFilename now := by
  refine ⟨?_, rfl, rfl, ?_⟩
  · simp [downloadCurrentChat]
    intro hc
    exact absurd hc h
  · intro heq
    have hl := congrArg String.length heq
    simp [currentChatFilename, logFilename, String.length_append] at hl
    exact absurd hl (by decide)

/-- Witness for C10 on a one-line fallback view at the fixed instant. -/
theorem c10_distinct_filenames_witness :
    downloadCurrentChat dt0 (some [⟨"", "Alice", "hi"⟩])
      = ExportResult.file
          (String.intercalate "\n" ([⟨"", "Alice", "hi"⟩].map (formatFallbackLine dt0)))
          (currentChatFilename dt0) ∧
    currentChatFilename dt0 = "game-chat-" ++ replaceChar ':' '-' (isoSlice19 dt0) ++ ".txt" ∧
    logFilename dt0 = "game-chat-log-" ++ replaceChar ':' '-' (isoSlice19 dt0) ++ ".txt" ∧
    currentChatFilename dt0 ≠ logFilename dt0 :=
  c10_distinct_filenames dt0 [⟨"", "Alice", "hi"⟩] (by decide)
